import Mathlib

/-!
Shallow embedding of the diet-tracking backend (accounts app: views.py and
models.py) used to check the natural-language specification.

Modelling conventions:
- Python floats are modelled as exact rationals.  All numeric literals in
  the source are short decimals, and every claim is decided far away from
  any binary-rounding boundary, so the rational model is faithful for the
  properties proved here.
- Python int(x) truncation toward zero is pyInt; round(x, 1) (banker
  rounding to one decimal) is pyRound1.
- Python truthiness fallbacks (x or default) are pyOrNat / pyOrQ / pyOrStr:
  the default is taken when the value is None, zero, or the empty string.
- A raised exception is modelled as Option.none in the function result.
- Database rows live in plain lists; save-by-primary-key is modelled as
  replacement of the matching row, and the relevant tables carry unique
  keys (user, date[, meal_type, name]) exactly as declared in models.py.
- Timestamps are rationals measured in days, so timedelta(days=7) is +7.
-/

/-- Truncation toward zero, the behaviour of Python int() on a float. -/
def pyInt (q : ℚ) : ℤ :=
  if 0 ≤ q then ⌊q⌋ else ⌈q⌉

/-- Round half to even on rationals, the behaviour of Python round(). -/
def pyRoundInt (q : ℚ) : ℤ :=
  let f := ⌊q⌋
  let frac := q - f
  if frac < 1/2 then f
  else if 1/2 < frac then f + 1
  else if f % 2 = 0 then f else f + 1

/-- Python round(x, 1): one decimal digit, half to even. -/
def pyRound1 (q : ℚ) : ℚ :=
  (pyRoundInt (q * 10) : ℚ) / 10

/-- Python fallback on a nullable integer field: value or default, where
None and 0 are both falsy. -/
def pyOrNat (v : Option ℕ) (dflt : ℕ) : ℕ :=
  match v with
  | none => dflt
  | some 0 => dflt
  | some n => n

/-- Python fallback on a nullable float field: None and 0.0 are falsy. -/
def pyOrQ (v : Option ℚ) (dflt : ℚ) : ℚ :=
  match v with
  | none => dflt
  | some q => if q = 0 then dflt else q

/-- Python fallback on a nullable string field: None and the empty string
are falsy. -/
def pyOrStr (v : Option String) (dflt : String) : String :=
  match v with
  | none => dflt
  | some s => if s = "" then dflt else s

/-- UserProfile fields read by the nutrition-target calculators
(models.py UserProfile). -/
structure UserProfile where
  age : Option ℕ
  weight : Option ℚ
  weight_unit : String
  height_cm : Option ℚ
  gender : Option String
  goal : Option String
  diet_preference : Option String
  health_conditions : List String
deriving DecidableEq

/-- Result record of calculate_nutrition_targets (views.py lines 107-115;
only the four numeric targets, the echoed preference fields are dropped). -/
structure NutritionTargets where
  calories_target : ℤ
  protein_target : ℚ
  carbs_target : ℚ
  fats_target : ℚ
deriving DecidableEq

/-- Weight normalisation of views.py line 53:
weight if unit is kg, else weight / 2.205 with fallback 70.
In the kg branch a missing weight stays None and the later arithmetic
10 * weight_kg raises TypeError, which the Option models. -/
def weightKgOf (p : UserProfile) : Option ℚ :=
  if p.weight_unit = "kg" then p.weight
  else
    match p.weight with
    | none => some 70
    | some w => if w = 0 then some 70 else some (w / 2.205)

/-- calculate_nutrition_targets (views.py lines 35-115).  The argument is
none when user.profile does not exist (the DoesNotExist branch); the
result is none when the body raises (missing weight with unit kg). -/
def calculate_nutrition_targets : Option UserProfile → Option NutritionTargets
  | none => some { calories_target := 2000, protein_target := 150, carbs_target := 200, fats_target := 65 }
  | some profile =>
    match weightKgOf profile with
    | none => none
    | some weight_kg =>
      let age : ℚ := (pyOrNat profile.age 30 : ℕ)
      let height_cm := pyOrQ profile.height_cm 170
      let gender := pyOrStr profile.gender "Male"
      let diet_preference := pyOrStr profile.diet_preference "Non-Veg"
      let health_conditions := profile.health_conditions
      let bmr :=
        if gender = "Male" then (10 * weight_kg) + (6.25 * height_cm) - (5 * age) + 5
        else (10 * weight_kg) + (6.25 * height_cm) - (5 * age) - 161
      let multiplier : ℚ := 1.55
      let tdee := bmr * multiplier
      let calories_target := pyInt tdee
      let protein_multiplier : ℚ :=
        if health_conditions.contains "Diabetes" then 1.1
        else if health_conditions.contains "High Blood Pressure" then 0.95
        else if health_conditions.contains "Thyroid Issues" then 1.05
        else 1.0
      let protein_target := weight_kg * 1.6 * protein_multiplier
      let fats_target := weight_kg * 0.9
      let carbs_kcal := max ((calories_target : ℚ) - (protein_target * 4) - (fats_target * 9)) 0
      let carbs_target := carbs_kcal / 4
      let adjusted :=
        if diet_preference = "High Protein" then
          (protein_target * 1.25, max (carbs_target * 0.85) 0, fats_target)
        else if diet_preference = "Keto / Low-Carb" then
          (protein_target, carbs_target * 0.5, fats_target * 1.2)
        else if diet_preference = "Vegan" then
          (protein_target * 1.15, carbs_target, fats_target)
        else (protein_target, carbs_target, fats_target)
      some { calories_target := calories_target,
             protein_target := pyRound1 adjusted.1,
             carbs_target := pyRound1 adjusted.2.1,
             fats_target := pyRound1 adjusted.2.2 }

/-- Meal-slot calorie percentages of MealRecommendationsView
(views.py lines 994-1000), with the dict-get default 0.25. -/
def mealPercentage (meal_type : String) : ℚ :=
  if meal_type = "Breakfast" then 0.25
  else if meal_type = "Brunch" then 0.15
  else if meal_type = "Lunch" then 0.35
  else if meal_type = "Evening Snacks" then 0.10
  else if meal_type = "Dinner" then 0.30
  else 0.25

/-- MealRecommendationsView._calculate_target_calories
(views.py lines 967-1007): Harris-Benedict BMR, goal-based multiplier,
per-slot percentage, floored with minimum 300. -/
def calculate_target_calories (profile : UserProfile) (meal_type : String) : ℤ :=
  let weight := pyOrQ profile.weight 70
  let height := pyOrQ profile.height_cm 175
  let age : ℚ := (pyOrNat profile.age 30 : ℕ)
  let gender := pyOrStr profile.gender "Male"
  let goal := pyOrStr profile.goal "Weight Loss"
  let bmr :=
    if gender = "Female" then 655 + (9.6 * weight) + (1.8 * height) - (4.7 * age)
    else 88 + (13.4 * weight) + (4.8 * height) - (5.7 * age)
  let tdee :=
    if goal = "Weight Loss" then bmr * 1.4
    else if goal = "Weight Gain" then bmr * 1.6
    else bmr * 1.5
  let target := pyInt (tdee * mealPercentage meal_type)
  max target 300

/-- MealEntry row (models.py MealEntry); the optional Food foreign key and
created_at are not read by any modelled operation and are omitted.  Users
and dates are abstract identifiers. -/
structure MealEntry where
  id : ℕ
  user : ℕ
  date : ℕ
  meal_type : String
  name : String
  serving : String
  quantity : ℚ
  calories : ℚ
  protein_g : ℚ
  carbs_g : ℚ
  fats_g : ℚ
  eaten : Bool
deriving DecidableEq

/-- DailyNutritionSummary row (models.py DailyNutritionSummary), unique per
(user, date). -/
structure DailyNutritionSummary where
  user : ℕ
  date : ℕ
  calories_target : ℚ
  calories_consumed : ℚ
  protein_g : ℚ
  protein_target : ℚ
  carbs_g : ℚ
  carbs_target : ℚ
  fats_g : ℚ
  fats_target : ℚ
deriving DecidableEq

/-- Database state touched by the meal views: the MealEntry table, the
DailyNutritionSummary table, and the next fresh primary key. -/
structure AppState where
  entries : List MealEntry
  summaries : List DailyNutritionSummary
  nextId : ℕ
deriving DecidableEq

def emptyState : AppState := { entries := [], summaries := [], nextId := 0 }

/-- Lookup filter of MealEntry.objects.get_or_create(user, date, meal_type,
name). -/
def entryKeyMatches (user date : ℕ) (meal_type name : String) (e : MealEntry) : Bool :=
  e.user == user && e.date == date && e.meal_type == meal_type && e.name == name

def findEntryByKey (st : AppState) (user date : ℕ) (meal_type name : String) : Option MealEntry :=
  st.entries.find? (entryKeyMatches user date meal_type name)

/-- All rows of the MealEntry table matching one (user, date, meal_type,
name) key. -/
def entriesForKey (st : AppState) (user date : ℕ) (meal_type name : String) : List MealEntry :=
  st.entries.filter (entryKeyMatches user date meal_type name)

/-- Row update by primary key, the effect of entry.save(). -/
def saveEntry (e : MealEntry) (l : List MealEntry) : List MealEntry :=
  l.map (fun x => if x.id == e.id then e else x)

/-- Row deletion by primary key, the effect of entry.delete(). -/
def deleteEntry (entryId : ℕ) (l : List MealEntry) : List MealEntry :=
  l.filter (fun x => !(x.id == entryId))

def summaryKeyMatches (user date : ℕ) (s : DailyNutritionSummary) : Bool :=
  s.user == user && s.date == date

def findSummary (l : List DailyNutritionSummary) (user date : ℕ) : Option DailyNutritionSummary :=
  l.find? (summaryKeyMatches user date)

/-- DailyNutritionSummary.objects.get_or_create(user, date, defaults):
returns the existing row, or inserts the given default row. -/
def getOrCreateSummary (l : List DailyNutritionSummary) (user date : ℕ)
    (dflt : DailyNutritionSummary) : DailyNutritionSummary × List DailyNutritionSummary :=
  match l.find? (summaryKeyMatches user date) with
  | some s => (s, l)
  | none => (dflt, l ++ [dflt])

/-- Row update of summary.save(); the (user, date) pair is the unique key
of the table (models.py Meta.unique_together). -/
def saveSummary (s : DailyNutritionSummary) (l : List DailyNutritionSummary) :
    List DailyNutritionSummary :=
  l.map (fun x => if summaryKeyMatches s.user s.date x then s else x)

/-- Summary row with the model defaults (every numeric field defaults to 0)
used by the add and remove paths, which pass defaults with
calories_target 0. -/
def zeroSummary (user date : ℕ) : DailyNutritionSummary :=
  { user := user, date := date, calories_target := 0, calories_consumed := 0,
    protein_g := 0, protein_target := 0, carbs_g := 0, carbs_target := 0,
    fats_g := 0, fats_target := 0 }

/-- Consumption totals, the total_consumed dict of the views. -/
structure ConsumedTotals where
  calories : ℚ
  protein_g : ℚ
  carbs_g : ℚ
  fats_g : ℚ
deriving DecidableEq

/-- MealEntry.objects.filter(user, date, eaten=True). -/
def eatenMeals (entries : List MealEntry) (user date : ℕ) : List MealEntry :=
  entries.filter (fun e => e.user == user && e.date == date && e.eaten)

/-- Per-field sums over a list of meals (the four sum() comprehensions of
DashboardTodayView and ToggleMealEatenView). -/
def totalConsumed (meals : List MealEntry) : ConsumedTotals :=
  { calories := (meals.map (fun m => m.calories)).sum,
    protein_g := (meals.map (fun m => m.protein_g)).sum,
    carbs_g := (meals.map (fun m => m.carbs_g)).sum,
    fats_g := (meals.map (fun m => m.fats_g)).sum }

/-- AddMealEntryView.post core (views.py lines 1344-1402), after input
validation and float conversion.  Returns the saved entry and the new
state. -/
def addMealEntry (user date : ℕ) (meal_type name serving : String)
    (quantity calories protein_g carbs_g fats_g : ℚ) (st : AppState) :
    MealEntry × AppState :=
  let one_cal := calories
  let one_prot := protein_g
  let one_carbs := carbs_g
  let one_fats := fats_g
  let found := st.entries.find? (entryKeyMatches user date meal_type name)
  match found with
  | none =>
    let entry : MealEntry :=
      { id := st.nextId, user := user, date := date, meal_type := meal_type,
        name := name, serving := serving, quantity := quantity,
        calories := one_cal * quantity, protein_g := one_prot * quantity,
        carbs_g := one_carbs * quantity, fats_g := one_fats * quantity,
        eaten := false }
    let entries := saveEntry entry (st.entries ++ [entry])
    let gcs := getOrCreateSummary st.summaries user date (zeroSummary user date)
    let summary :=
      { gcs.1 with
        calories_consumed := gcs.1.calories_consumed + one_cal * quantity,
        protein_g := gcs.1.protein_g + one_prot * quantity,
        carbs_g := gcs.1.carbs_g + one_carbs * quantity,
        fats_g := gcs.1.fats_g + one_fats * quantity }
    (entry, { entries := entries, summaries := saveSummary summary gcs.2,
              nextId := st.nextId + 1 })
  | some existing =>
    let updated :=
      { existing with
        quantity := existing.quantity + quantity,
        calories := existing.calories + one_cal * quantity,
        protein_g := existing.protein_g + one_prot * quantity,
        carbs_g := existing.carbs_g + one_carbs * quantity,
        fats_g := existing.fats_g + one_fats * quantity }
    let entry := if updated.serving = "" then { updated with serving := serving } else updated
    let entries := saveEntry entry st.entries
    let gcs := getOrCreateSummary st.summaries user date (zeroSummary user date)
    let summary :=
      { gcs.1 with
        calories_consumed := gcs.1.calories_consumed + one_cal * quantity,
        protein_g := gcs.1.protein_g + one_prot * quantity,
        carbs_g := gcs.1.carbs_g + one_carbs * quantity,
        fats_g := gcs.1.fats_g + one_fats * quantity }
    (entry, { entries := entries, summaries := saveSummary summary gcs.2,
              nextId := st.nextId })

/-- Outcome of RemoveMealEntryView.delete. -/
inductive RemoveResult where
  | notFound
  | removedGuard
  | oneServingRemoved (entry : MealEntry)
  | deletedNoServings
deriving DecidableEq

/-- RemoveMealEntryView.delete core (views.py lines 1440-1504). -/
def removeMealEntry (entryId user : ℕ) (st : AppState) : RemoveResult × AppState :=
  match st.entries.find? (fun e => e.id == entryId && e.user == user) with
  | none => (.notFound, st)
  | some entry =>
    if entry.quantity ≤ 0 then
      (.removedGuard, { st with entries := deleteEntry entry.id st.entries })
    else
      let one_cal := entry.calories / entry.quantity
      let one_prot := entry.protein_g / entry.quantity
      let one_carbs := entry.carbs_g / entry.quantity
      let one_fats := entry.fats_g / entry.quantity
      let gcs :=
        getOrCreateSummary st.summaries entry.user entry.date (zeroSummary entry.user entry.date)
      if 1 < entry.quantity then
        let entry2 :=
          { entry with
            quantity := entry.quantity - 1,
            calories := entry.calories - one_cal,
            protein_g := entry.protein_g - one_prot,
            carbs_g := entry.carbs_g - one_carbs,
            fats_g := entry.fats_g - one_fats }
        let summary2 :=
          { gcs.1 with
            calories_consumed := gcs.1.calories_consumed - one_cal,
            protein_g := gcs.1.protein_g - one_prot,
            carbs_g := gcs.1.carbs_g - one_carbs,
            fats_g := gcs.1.fats_g - one_fats }
        (.oneServingRemoved entry2,
         { st with entries := saveEntry entry2 st.entries,
                   summaries := saveSummary summary2 gcs.2 })
      else
        let summary2 :=
          { gcs.1 with
            calories_consumed := gcs.1.calories_consumed - entry.calories,
            protein_g := gcs.1.protein_g - entry.protein_g,
            carbs_g := gcs.1.carbs_g - entry.carbs_g,
            fats_g := gcs.1.fats_g - entry.fats_g }
        (.deletedNoServings,
         { st with entries := deleteEntry entry.id st.entries,
                   summaries := saveSummary summary2 gcs.2 })

/-- ToggleMealEatenView.patch core (views.py lines 1545-1598).  The targets
argument is the result of calculate_nutrition_targets on the current
profile.  Returns none on the 404 branch, else the new state, the toggled
entry and the saved summary. -/
def toggleMealEaten (entryId user : ℕ) (targets : NutritionTargets) (st : AppState) :
    Option (AppState × MealEntry × DailyNutritionSummary) :=
  match st.entries.find? (fun e => e.id == entryId && e.user == user) with
  | none => none
  | some entry =>
    let entry2 := { entry with eaten := !entry.eaten }
    let entries2 := saveEntry entry2 st.entries
    let tc := totalConsumed (eatenMeals entries2 user entry.date)
    let dflt : DailyNutritionSummary :=
      { user := user, date := entry.date,
        calories_target := (targets.calories_target : ℚ),
        protein_target := targets.protein_target,
        carbs_target := targets.carbs_target,
        fats_target := targets.fats_target,
        calories_consumed := tc.calories, protein_g := tc.protein_g,
        carbs_g := tc.carbs_g, fats_g := tc.fats_g }
    let gcs := getOrCreateSummary st.summaries user entry.date dflt
    let summary :=
      { gcs.1 with
        calories_consumed := tc.calories, protein_g := tc.protein_g,
        carbs_g := tc.carbs_g, fats_g := tc.fats_g }
    let summary :=
      if summary.calories_target == 0 then
        { summary with
          calories_target := (targets.calories_target : ℚ),
          protein_target := targets.protein_target,
          carbs_target := targets.carbs_target,
          fats_target := targets.fats_target }
      else summary
    some ({ st with entries := entries2, summaries := saveSummary summary gcs.2 },
          entry2, summary)

/-- DashboardTodayView.get core (views.py lines 471-522): recompute the
consumed totals from the eaten entries of the day and unconditionally sync
both consumed and target fields on the summary row.  The targets argument
is the result of calculate_nutrition_targets on the current profile. -/
def dashboardToday (user today : ℕ) (targets : NutritionTargets) (st : AppState) :
    DailyNutritionSummary × AppState :=
  let tc := totalConsumed (eatenMeals st.entries user today)
  let dflt : DailyNutritionSummary :=
    { user := user, date := today,
      calories_target := (targets.calories_target : ℚ),
      protein_target := targets.protein_target,
      carbs_target := targets.carbs_target,
      fats_target := targets.fats_target,
      calories_consumed := tc.calories, protein_g := tc.protein_g,
      carbs_g := tc.carbs_g, fats_g := tc.fats_g }
  let gcs := getOrCreateSummary st.summaries user today dflt
  let summary :=
    { gcs.1 with
      calories_consumed := tc.calories, protein_g := tc.protein_g,
      carbs_g := tc.carbs_g, fats_g := tc.fats_g,
      calories_target := (targets.calories_target : ℚ),
      protein_target := targets.protein_target,
      carbs_target := targets.carbs_target,
      fats_target := targets.fats_target }
  (summary, { st with summaries := saveSummary summary gcs.2 })

/-- Cleaned recommendation item persisted in items_json
(ai_recommender.py recommend_meals_for_user output shape). -/
structure RecItem where
  name : String
  serving : String
  calories : ℤ
  protein_g : ℚ
  carbs_g : ℚ
  fats_g : ℚ
  note : String
  image_url : String
deriving DecidableEq

/-- Result of the external generator recommend_meals_for_user: either a
clean item list, or a response carrying an error key (whose items list is
empty, ai_recommender.py lines 108-112 and 158-163). -/
inductive GenResult where
  | ok (items : List RecItem)
  | error (msg : String)
deriving DecidableEq

/-- Items list the caller reads with ai_resp.get with default []: the error
response carries an empty items list. -/
def GenResult.itemsOrEmpty : GenResult → List RecItem
  | .ok items => items
  | .error _ => []

/-- MealRecommendation row (models.py MealRecommendation), unique per
(user, date, meal_type); created_at measured in days. -/
structure MealRecommendation where
  user : ℕ
  date : ℕ
  meal_type : String
  items_json : List RecItem
  goal : Option String
  diet_preference : Option String
  health_conditions : List String
  target_calories : ℤ
  created_at : ℚ
deriving DecidableEq

/-- MealRecommendation.is_valid (models.py lines 375-378): now is before
created_at plus 7 days. -/
def MealRecommendation.is_valid (rec : MealRecommendation) (now : ℚ) : Bool :=
  decide (now < rec.created_at + 7)

/-- Per-slot outcome of MealRecommendationsView.get: a cached row served
verbatim, a fresh generation, or a surfaced generator error. -/
inductive SlotRecResult where
  | cached (rec : MealRecommendation)
  | generated (items : List RecItem) (target_calories : ℤ) (created_at : ℚ)
  | genError (meal_type : String) (msg : String)
deriving DecidableEq

/-- Cache-miss branch of MealRecommendationsView.get (views.py lines
914-956): on generator error append the error and create no row; on
success compute the slot target, persist the row and return it fresh. -/
def generateSlot (profile : UserProfile) (gen : GenResult) (now : ℚ)
    (user date : ℕ) (meal_type : String) :
    SlotRecResult × Option MealRecommendation :=
  match gen with
  | .error msg => (.genError meal_type msg, none)
  | .ok items =>
    let target := calculate_target_calories profile meal_type
    let row : MealRecommendation :=
      { user := user, date := date, meal_type := meal_type, items_json := items,
        goal := profile.goal, diet_preference := profile.diet_preference,
        health_conditions := profile.health_conditions,
        target_calories := target, created_at := now }
    (.generated items target now, some row)

/-- One loop iteration of MealRecommendationsView.get for one meal type
(views.py lines 887-956): serve a valid cached row, else delete the
expired row and regenerate.  The second component is the stored row for
this (user, date, meal_type) key after the request. -/
def getMealRecommendation (profile : UserProfile) (gen : GenResult) (now : ℚ)
    (user date : ℕ) (meal_type : String) (stored : Option MealRecommendation) :
    SlotRecResult × Option MealRecommendation :=
  match stored with
  | some rec =>
    if rec.is_valid now then (.cached rec, some rec)
    else generateSlot profile gen now user date meal_type
  | none => generateSlot profile gen now user date meal_type

/-- Fixed meal slots iterated by both recommendation views. -/
def mealTypes : List String :=
  ["Breakfast", "Brunch", "Lunch", "Evening Snacks", "Dinner"]

/-- Whole-day loop of MealRecommendationsView.get: each of the five slots
is processed independently with its own stored row and its own generator
outcome; one result per slot. -/
def getDayRecommendations (profile : UserProfile) (gen : String → GenResult) (now : ℚ)
    (user date : ℕ) (stored : String → Option MealRecommendation) :
    List (String × SlotRecResult × Option MealRecommendation) :=
  mealTypes.map (fun mt => (mt, getMealRecommendation profile (gen mt) now user date mt (stored mt)))

/-- WeeklyMealRecommendation row (models.py WeeklyMealRecommendation):
nested day-to-slot-to-items data, unique per (user, week_start_date).
Days are offsets week_start_date + i. -/
structure WeeklyMealRecommendation where
  user : ℕ
  week_start_date : ℕ
  recommendations_data : List (ℕ × List (String × List RecItem))
deriving DecidableEq

/-- WeeklyMealRecommendationView.get core (views.py lines 1044-1071): get
or create the weekly row; when its data is empty (or the row is new),
generate all 7 days times 5 slots in one pass, storing each slot's items
list as returned by ai_resp.get with default [] (an errored slot stores
[]), and save once.  Otherwise serve the stored data verbatim. -/
def weeklyMealRecommendation (stored : Option WeeklyMealRecommendation)
    (gen : ℕ → String → GenResult) (user monday : ℕ) : WeeklyMealRecommendation :=
  let pair :=
    match stored with
    | some r => (r, false)
    | none => ({ user := user, week_start_date := monday, recommendations_data := [] }, true)
  let weekly_rec := pair.1
  let created := pair.2
  if weekly_rec.recommendations_data.isEmpty || created then
    let week_data :=
      (List.range 7).map (fun i =>
        (monday + i, mealTypes.map (fun mt => (mt, (gen i mt).itemsOrEmpty))))
    { weekly_rec with recommendations_data := week_data }
  else weekly_rec

/-- Items stored in a weekly row for one day and slot. -/
def weekSlotItems (r : WeeklyMealRecommendation) (day : ℕ) (meal_type : String) :
    Option (List RecItem) :=
  match r.recommendations_data.find? (fun p => p.1 == day) with
  | none => none
  | some p =>
    match p.2.find? (fun q => q.1 == meal_type) with
    | none => none
    | some q => some q.2

/-- Calendar date as used by datetime.date. -/
structure PyDate where
  year : ℕ
  month : ℕ
  day : ℕ
deriving DecidableEq

/-- Gregorian leap-year rule implemented by datetime. -/
def isLeap (y : ℕ) : Bool :=
  (y % 4 == 0 && y % 100 != 0) || (y % 400 == 0)

def daysInMonth (y m : ℕ) : ℕ :=
  if m = 2 then (if isLeap y then 29 else 28)
  else if m = 4 || m = 6 || m = 9 || m = 11 then 30
  else 31

/-- date plus timedelta(days=1). -/
def nextDay (d : PyDate) : PyDate :=
  if d.day < daysInMonth d.year d.month then { d with day := d.day + 1 }
  else if d.month < 12 then { year := d.year, month := d.month + 1, day := 1 }
  else { year := d.year + 1, month := 1, day := 1 }

/-- date minus timedelta(days=1). -/
def prevDay (d : PyDate) : PyDate :=
  if 1 < d.day then { d with day := d.day - 1 }
  else if 1 < d.month then { year := d.year, month := d.month - 1, day := daysInMonth d.year (d.month - 1) }
  else { year := d.year - 1, month := 12, day := 31 }

/-- Date comparison d1 less-or-equal d2. -/
def dateLe (a b : PyDate) : Bool :=
  Nat.blt a.year b.year ||
    (a.year == b.year &&
      (Nat.blt a.month b.month || (a.month == b.month && Nat.ble a.day b.day)))

/-- Fuel-bounded version of the while loop of DashboardMonthlyView.get
(views.py lines 736-775): collect d, d+1, ... while d is at most last.
The fuel only bounds the recursion; 400 exceeds any month length. -/
def datesUpTo (fuel : ℕ) (d last : PyDate) : List PyDate :=
  match fuel with
  | 0 => []
  | Nat.succ f => if dateLe d last then d :: datesUpTo f (nextDay d) last else []

/-- Month window of DashboardMonthlyView.get (views.py lines 702-717):
first day of the month through first day of the next month minus one
day. -/
def monthWindow (year month : ℕ) : PyDate × PyDate :=
  let first_day : PyDate := { year := year, month := month, day := 1 }
  let next_month : PyDate :=
    if first_day.month = 12 then { year := first_day.year + 1, month := 1, day := 1 }
    else { year := first_day.year, month := first_day.month + 1, day := 1 }
  (first_day, prevDay next_month)

/-- Stored DailyNutritionSummary fields read by the monthly report, keyed
by calendar date. -/
structure StoredDaySummary where
  calories_target : ℚ
  calories_consumed : ℚ
  protein_g : ℚ
  protein_target : ℚ
  carbs_g : ℚ
  carbs_target : ℚ
  fats_g : ℚ
  fats_target : ℚ
deriving DecidableEq

/-- One day entry of the monthly report response. -/
structure MonthlyDayEntry where
  date : PyDate
  calories : ℤ
  calories_target : ℤ
  proteins : ℚ
  proteins_target : ℚ
  carbs : ℚ
  carbs_target : ℚ
  fats : ℚ
  fats_target : ℚ
deriving DecidableEq

/-- Day-entry policy of DashboardMonthlyView.get (views.py lines 737-775):
a stored summary contributes its stored consumed and target values; a
missing day contributes zero consumed and the current computed targets. -/
def monthlyDayEntry (lookup : PyDate → Option StoredDaySummary)
    (current : NutritionTargets) (d : PyDate) : MonthlyDayEntry :=
  match lookup d with
  | some obj =>
    { date := d,
      calories := pyInt obj.calories_consumed,
      calories_target := pyInt obj.calories_target,
      proteins := pyRound1 obj.protein_g,
      proteins_target := pyRound1 obj.protein_target,
      carbs := pyRound1 obj.carbs_g,
      carbs_target := pyRound1 obj.carbs_target,
      fats := pyRound1 obj.fats_g,
      fats_target := pyRound1 obj.fats_target }
  | none =>
    { date := d,
      calories := 0,
      calories_target := current.calories_target,
      proteins := 0,
      proteins_target := pyRound1 current.protein_target,
      carbs := 0,
      carbs_target := pyRound1 current.carbs_target,
      fats := 0,
      fats_target := pyRound1 current.fats_target }

/-- Day list of the monthly report for one requested year and month. -/
def monthlyDays (lookup : PyDate → Option StoredDaySummary)
    (current : NutritionTargets) (year month : ℕ) : List MonthlyDayEntry :=
  let w := monthWindow year month
  (datesUpTo 400 w.1 w.2).map (monthlyDayEntry lookup current)

/-- Profile of the concrete target scenario: male, 30 years, 70 kg, 175 cm,
no health conditions, no macro-adjusting diet preference. -/
def c2Profile : UserProfile :=
  { age := some 30, weight := some 70, weight_unit := "kg", height_cm := some 175,
    gender := some "Male", goal := none, diet_preference := none, health_conditions := [] }

/-- Profile whose weight is missing while the stored unit is kg. -/
def noWeightKgProfile : UserProfile := { c2Profile with weight := none }

/-- Example recommendation item. -/
def exItem : RecItem :=
  { name := "Dal", serving := "1 bowl", calories := 200, protein_g := 10,
    carbs_g := 30, fats_g := 5, note := "", image_url := "img" }

/-- Example cached recommendation row created at day 100. -/
def exRecRow : MealRecommendation :=
  { user := 7, date := 3, meal_type := "Lunch", items_json := [exItem],
    goal := some "Weight Loss", diet_preference := some "Veg",
    health_conditions := [], target_calories := 830, created_at := 100 }

/-- Generator that fails for the Breakfast slot of the first day and
succeeds elsewhere. -/
def genFail0 : ℕ → String → GenResult :=
  fun i mt => if i == 0 && mt == "Breakfast" then .error "generation failed" else .ok [exItem]

/-- Generator that always succeeds. -/
def genOk : ℕ → String → GenResult := fun _ _ => .ok [exItem]

/-- State after adding one not-yet-eaten serving of oats to the empty
database. -/
def addedState : AppState := (addMealEntry 0 0 "Breakfast" "Oats" "" 1 100 10 20 5 emptyState).2

/-- State holding one summary row for user 0, day 0 with a stale calorie
target of 1000 and nothing else. -/
def staleTargetState : AppState :=
  { entries := [],
    summaries := [{ user := 0, date := 0, calories_target := 1000, calories_consumed := 0,
                    protein_g := 0, protein_target := 0, carbs_g := 0, carbs_target := 0,
                    fats_g := 0, fats_target := 0 }],
    nextId := 0 }

/-- Example current targets used by the report witnesses. -/
def exTargets : NutritionTargets :=
  { calories_target := 2555, protein_target := 112, carbs_target := 385, fats_target := 63 }

def feb10 : PyDate := { year := 2024, month := 2, day := 10 }

/-- Example stored daily summary for the monthly report. -/
def exStoredDay : StoredDaySummary :=
  { calories_target := 2000, calories_consumed := 1500.5, protein_g := 80.24,
    protein_target := 112, carbs_g := 200.5, carbs_target := 385,
    fats_g := 60.2, fats_target := 63 }

/-- Summary lookup with a single stored day, 2024-02-10. -/
def lookupEx : PyDate → Option StoredDaySummary :=
  fun d => if d = feb10 then some exStoredDay else none

/-- Entry used by the remove witnesses: two servings of rice, eaten. -/
def riceEntry : MealEntry :=
  { id := 5, user := 2, date := 9, meal_type := "Lunch", name := "Rice", serving := "1 cup",
    quantity := 2, calories := 260, protein_g := 5, carbs_g := 56, fats_g := 1, eaten := true }

def riceState : AppState := { entries := [riceEntry], summaries := [], nextId := 6 }

/-- Entry with exactly one serving left. -/
def oneEntry : MealEntry :=
  { id := 8, user := 2, date := 9, meal_type := "Dinner", name := "Soup", serving := "1 bowl",
    quantity := 1, calories := 90, protein_g := 4, carbs_g := 12, fats_g := 2, eaten := false }

def oneState : AppState := { entries := [oneEntry], summaries := [], nextId := 9 }

/-- Entry with a fractional half serving. -/
def halfEntry : MealEntry :=
  { id := 3, user := 1, date := 4, meal_type := "Dinner", name := "Apple", serving := "",
    quantity := 1/2, calories := 50, protein_g := 1/2, carbs_g := 13, fats_g := 0, eaten := false }

def halfState : AppState := { entries := [halfEntry], summaries := [], nextId := 4 }

/-- Statement shorthand: the summary row the add and remove paths start
from, the existing (user, date) row or the zero default created by
get_or_create. -/
def baseSummary (st : AppState) (user date : ℕ) : DailyNutritionSummary :=
  (getOrCreateSummary st.summaries user date (zeroSummary user date)).1

/-- Statement shorthand: the summary table after the get_or_create of the
add and remove paths. -/
def baseSummaryRest (st : AppState) (user date : ℕ) : List DailyNutritionSummary :=
  (getOrCreateSummary st.summaries user date (zeroSummary user date)).2

/-- Statement shorthand: summary with the four consumed fields increased
by the given amounts. -/
def summaryPlus (s : DailyNutritionSummary) (c p b f : ℚ) : DailyNutritionSummary :=
  { s with calories_consumed := s.calories_consumed + c,
           protein_g := s.protein_g + p, carbs_g := s.carbs_g + b, fats_g := s.fats_g + f }

/-- Statement shorthand: summary with the four consumed fields decreased
by the given amounts. -/
def summaryMinus (s : DailyNutritionSummary) (c p b f : ℚ) : DailyNutritionSummary :=
  { s with calories_consumed := s.calories_consumed - c,
           protein_g := s.protein_g - p, carbs_g := s.carbs_g - b, fats_g := s.fats_g - f }

/-- Statement shorthand: the entry after subtracting one implied serving,
whose per-unit macros are the current totals over the current quantity. -/
def entryMinusOneImpliedServing (entry : MealEntry) : MealEntry :=
  { entry with
    quantity := entry.quantity - 1,
    calories := entry.calories - entry.calories / entry.quantity,
    protein_g := entry.protein_g - entry.protein_g / entry.quantity,
    carbs_g := entry.carbs_g - entry.carbs_g / entry.quantity,
    fats_g := entry.fats_g - entry.fats_g / entry.quantity }

/-- Summary row for user 2, day 9 with a stale calorie target of 1000. -/
def staleSummary : DailyNutritionSummary :=
  { user := 2, date := 9, calories_target := 1000, calories_consumed := 0,
    protein_g := 0, protein_target := 7, carbs_g := 0, carbs_target := 8,
    fats_g := 0, fats_target := 9 }

/-- State with the rice entry and the stale-target summary row. -/
def staleState2 : AppState :=
  { entries := [riceEntry], summaries := [staleSummary], nextId := 6 }

/-- Replacing every p-match of a list by a p-satisfying element is the
identity when nothing matches. -/
theorem list_map_ite_id {α : Type _} (p : α → Bool) (s : α) (l : List α)
    (h : ∀ x ∈ l, ¬ p x = true) : l.map (fun x => if p x then s else x) = l := by
  conv_rhs => rw [← List.map_id l]
  apply List.map_eq_map_iff.mpr
  intro x hx
  simp [h x hx]

/-- After replacing the p-matches of a list that has one by a p-satisfying
element s, find? returns s. -/
theorem list_find?_map_ite {α : Type _} (p : α → Bool) (s : α) (hs : p s = true)
    (l : List α) (hl : (l.find? p).isSome) :
    (l.map (fun x => if p x then s else x)).find? p = some s := by
  induction l with
  | nil => simp [List.find?] at hl
  | cons a t ih =>
    by_cases ha : p a = true
    · simp only [List.map_cons, if_pos ha]
      exact List.find?_cons_of_pos _ hs
    · have ha' : ¬ p a := by simpa using ha
      simp only [List.map_cons, if_neg ha]
      rw [List.find?_cons_of_neg _ ha']
      apply ih
      rwa [List.find?_cons_of_neg _ ha'] at hl

/-- find? skips a prefix in which nothing matches. -/
theorem list_find?_append_none {α : Type _} (p : α → Bool) (l1 l2 : List α)
    (h : l1.find? p = none) : (l1 ++ l2).find? p = l2.find? p := by
  induction l1 with
  | nil => simp
  | cons a t ih =>
    have ha : ¬ p a := by
      intro hpa
      rw [List.find?_cons_of_pos _ hpa] at h
      exact Option.noConfusion h
    rw [List.find?_cons_of_neg _ ha] at h
    rw [List.cons_append, List.find?_cons_of_neg _ ha]
    exact ih h

/-- The row returned by getOrCreateSummary carries the requested key. -/
theorem getOrCreateSummary_fst_key (l : List DailyNutritionSummary) (u d : ℕ)
    (dflt : DailyNutritionSummary) (hdu : dflt.user = u) (hdd : dflt.date = d) :
    (getOrCreateSummary l u d dflt).1.user = u ∧ (getOrCreateSummary l u d dflt).1.date = d := by
  unfold getOrCreateSummary
  cases h : l.find? (summaryKeyMatches u d) with
  | none => exact ⟨hdu, hdd⟩
  | some s =>
    have := List.find?_some h
    simp only [summaryKeyMatches, Bool.and_eq_true, beq_iff_eq] at this
    exact this

/-- After a get-or-create followed by a save of an updated row with the
same key, the summary lookup for that key returns the saved row. -/
theorem findSummary_saved (l : List DailyNutritionSummary) (u d : ℕ)
    (dflt s : DailyNutritionSummary)
    (hdu : dflt.user = u) (hdd : dflt.date = d) (hsu : s.user = u) (hsd : s.date = d) :
    findSummary (saveSummary s (getOrCreateSummary l u d dflt).2) u d = some s := by
  have hps : summaryKeyMatches u d s = true := by
    simp [summaryKeyMatches, hsu, hsd]
  have hpd : summaryKeyMatches u d dflt = true := by
    simp [summaryKeyMatches, hdu, hdd]
  unfold findSummary saveSummary getOrCreateSummary
  rw [hsu, hsd]
  cases h : l.find? (summaryKeyMatches u d) with
  | some a =>
    exact list_find?_map_ite _ _ hps l (by rw [h]; rfl)
  | none =>
    have hall : ∀ x ∈ l, ¬ summaryKeyMatches u d x = true := List.find?_eq_none.mp h
    rw [List.map_append, list_map_ite_id _ _ _ hall]
    rw [list_find?_append_none _ _ _ h]
    simp [hpd, hps]

/-- Evaluation of the daily-target calculator on the concrete scenario
profile: the calorie target is 2555. -/
theorem c2_calories_eval :
    (calculate_nutrition_targets (some c2Profile)).map (fun t => t.calories_target) = some 2555 := by
  norm_num [calculate_nutrition_targets, c2Profile, weightKgOf, pyOrQ, pyOrStr, pyOrNat, pyInt]

/-- Claim C2: for the profile gender Male, age 30, weight 70 kg, height
175 cm with no health conditions and no macro-adjusting diet preference,
the daily-target computation is claimed to return a calorie target of
2594; it actually returns 2555, so the claim as stated is false. -/
theorem claim_C2_counterexample :
    (calculate_nutrition_targets (some c2Profile)).map (fun t => t.calories_target) = some 2555 ∧
    ¬ (calculate_nutrition_targets (some c2Profile)).map (fun t => t.calories_target) = some 2594 := by
  refine ⟨c2_calories_eval, ?_⟩
  rw [c2_calories_eval]
  decide

/-- Claim C2 (amended): for that profile the daily-target computation
returns a calorie target of 2555, the floor of the Mifflin-St Jeor BMR
1648.75 times the fixed activity factor 1.55. -/
theorem claim_C2_amended :
    (calculate_nutrition_targets (some c2Profile)).map (fun t => t.calories_target) = some 2555 ∧
    ((10 * 70 + 6.25 * 175 - 5 * 30 + 5 : ℚ) = 1648.75 ∧ (⌊(1648.75 * 1.55 : ℚ)⌋ : ℤ) = 2555) := by
  refine ⟨c2_calories_eval, by norm_num, by norm_num⟩

/-- Claim C8: the daily-target computation is claimed total with default
weight 70; in the code the kg branch keeps a missing weight as None and
the later arithmetic raises, so the computation fails exactly on a profile
whose weight is None while weight_unit is kg, while the lbs branch does
apply the documented default 70 and succeeds. -/
theorem claim_C8_crash :
    calculate_nutrition_targets (some noWeightKgProfile) = none ∧
    (calculate_nutrition_targets (some { noWeightKgProfile with weight_unit := "lbs" })).map
        (fun t => t.calories_target) = some 2555 := by
  constructor
  · norm_num [calculate_nutrition_targets, noWeightKgProfile, c2Profile, weightKgOf]
  · have h : ("lbs" : String) ≠ "kg" := by decide
    norm_num [calculate_nutrition_targets, noWeightKgProfile, c2Profile, weightKgOf, h,
      pyOrQ, pyOrStr, pyOrNat, pyInt]

/-- Claim C6: a daily recommendation row created at time T is served
verbatim as cached at T plus 6 days; a read at T plus 8 days regenerates
it with a fresh timestamp; validity is exactly the condition
now < T plus 7 days. -/
theorem claim_C6_cache_lifecycle (profile : UserProfile) (row : MealRecommendation)
    (items : List RecItem) (T : ℚ) (user date : ℕ) (mt : String)
    (hT : row.created_at = T) :
    getMealRecommendation profile (.ok items) (T + 6) user date mt (some row) =
      (.cached row, some row) ∧
    getMealRecommendation profile (.ok items) (T + 8) user date mt (some row) =
      (.generated items (calculate_target_calories profile mt) (T + 8),
       some { user := user, date := date, meal_type := mt, items_json := items,
              goal := profile.goal, diet_preference := profile.diet_preference,
              health_conditions := profile.health_conditions,
              target_calories := calculate_target_calories profile mt,
              created_at := T + 8 }) ∧
    (∀ now : ℚ, row.is_valid now = true ↔ now < T + 7) := by
  have hlt : T + 6 < T + 7 := by linarith
  have hge : ¬ (T + 8 < T + 7) := by linarith
  have h6 : row.is_valid (T + 6) = true := by
    simp [MealRecommendation.is_valid, hT, hlt]
  have h8 : row.is_valid (T + 8) = false := by
    simp [MealRecommendation.is_valid, hT, hge]
  refine ⟨?_, ?_, ?_⟩
  · simp [getMealRecommendation, h6]
  · simp [getMealRecommendation, h8, generateSlot]
  · intro now
    simp [MealRecommendation.is_valid, hT]

/-- Witness for claim C6 at a concrete row created on day 100, read on day
106. -/
theorem claim_C6_witness :
    getMealRecommendation c2Profile (.ok [exItem]) (100 + 6) 7 3 "Lunch" (some exRecRow) =
      (.cached exRecRow, some exRecRow) ∧
    (exRecRow.is_valid 106 = true ↔ (106 : ℚ) < 100 + 7) := by
  have h := claim_C6_cache_lifecycle c2Profile exRecRow [exItem] 100 7 3 "Lunch" rfl
  exact ⟨h.1, h.2.2 106⟩

/-- A weekly recommendation row whose stored data is nonempty is served
verbatim, without calling the generator. -/
theorem weekly_serves_nonempty (w : WeeklyMealRecommendation) (gen2 : ℕ → String → GenResult)
    (user monday : ℕ) (h : w.recommendations_data ≠ []) :
    weeklyMealRecommendation (some w) gen2 user monday = w := by
  cases hd : w.recommendations_data with
  | nil => exact absurd hd h
  | cons a t => simp [weeklyMealRecommendation, hd]

/-- Claim C3: the per-day path does surface a generator error per slot
without storing anything and with the sibling slots unaffected, but in the
weekly bulk path the claimed behaviour fails: the failed slot content is
stored inside the weekly record (as the empty items list of the error
response) and a subsequent read serves the stored record without
re-attempting generation even with a working generator. -/
theorem claim_C3_counterexample :
    weekSlotItems (weeklyMealRecommendation none genFail0 0 100) 100 "Breakfast" = some [] ∧
    weeklyMealRecommendation (some (weeklyMealRecommendation none genFail0 0 100)) genOk 0 100 =
      weeklyMealRecommendation none genFail0 0 100 := by
  constructor
  · decide
  · decide

/-- Claim C3 (amended): in the per-day path a generator error on a missing
or expired key is surfaced in that slot result, no row is stored, the five
slots are processed independently, and a later read of the key attempts
generation again; in the weekly bulk path, by contrast, the items list of
the failed call (empty on error) is stored inside the weekly record and a
later read serves the stored record without calling the generator. -/
theorem claim_C3_amended :
    (∀ (profile : UserProfile) (now : ℚ) (user date : ℕ) (mt msg : String)
       (stored : Option MealRecommendation),
       (stored = none ∨ ∃ row, stored = some row ∧ row.is_valid now = false) →
       getMealRecommendation profile (.error msg) now user date mt stored =
         (.genError mt msg, none)) ∧
    (∀ (profile : UserProfile) (gen : String → GenResult) (now : ℚ) (user date : ℕ)
       (stored : String → Option MealRecommendation),
       (getDayRecommendations profile gen now user date stored).length = mealTypes.length ∧
       ∀ mt ∈ mealTypes,
         (mt, getMealRecommendation profile (gen mt) now user date mt (stored mt)) ∈
           getDayRecommendations profile gen now user date stored) ∧
    (∀ (profile : UserProfile) (now2 : ℚ) (user date : ℕ) (mt : String) (items : List RecItem),
       getMealRecommendation profile (.ok items) now2 user date mt none =
         (.generated items (calculate_target_calories profile mt) now2,
          some { user := user, date := date, meal_type := mt, items_json := items,
                 goal := profile.goal, diet_preference := profile.diet_preference,
                 health_conditions := profile.health_conditions,
                 target_calories := calculate_target_calories profile mt,
                 created_at := now2 })) ∧
    (∀ (user monday : ℕ) (gen gen2 : ℕ → String → GenResult),
       (weeklyMealRecommendation none gen user monday).recommendations_data =
         (List.range 7).map (fun i =>
           (monday + i, mealTypes.map (fun mt => (mt, (gen i mt).itemsOrEmpty)))) ∧
       (∀ msg : String, GenResult.itemsOrEmpty (.error msg) = []) ∧
       weeklyMealRecommendation (some (weeklyMealRecommendation none gen user monday)) gen2 user monday =
         weeklyMealRecommendation none gen user monday) := by
  refine ⟨?_, ?_, ?_, ?_⟩
  · intro profile now user date mt msg stored h
    rcases h with rfl | ⟨row, rfl, hrow⟩
    · simp [getMealRecommendation, generateSlot]
    · simp [getMealRecommendation, hrow, generateSlot]
  · intro profile gen now user date stored
    constructor
    · simp [getDayRecommendations]
    · intro mt hmt
      exact List.mem_map_of_mem _ hmt
  · intro profile now2 user date mt items
    simp [getMealRecommendation, generateSlot]
  · intro user monday gen gen2
    have hdata : (weeklyMealRecommendation none gen user monday).recommendations_data =
        (List.range 7).map (fun i =>
          (monday + i, mealTypes.map (fun mt => (mt, (gen i mt).itemsOrEmpty)))) := by
      simp [weeklyMealRecommendation]
    refine ⟨hdata, fun msg => rfl, ?_⟩
    apply weekly_serves_nonempty
    rw [hdata]
    simp

/-- Witness for the amended claim C3: a failing generator on day 5 slot
Lunch with no stored row yields a surfaced error and stores nothing, and
the day result still carries one outcome per slot. -/
theorem claim_C3_witness :
    getMealRecommendation c2Profile (.error "generation failed") 5 1 2 "Lunch" none =
      (.genError "Lunch" "generation failed", none) ∧
    (getDayRecommendations c2Profile (fun _ => .error "generation failed") 5 1 2 (fun _ => none)).length =
      mealTypes.length := by
  have h := claim_C3_amended
  exact ⟨h.1 c2Profile 5 1 2 "Lunch" "generation failed" none (Or.inl rfl),
         (h.2.1 c2Profile (fun _ => .error "generation failed") 5 1 2 (fun _ => none)).1⟩

/-- Claim C9: the monthly report window for 2024-02 is exactly 2024-02-01
through 2024-02-29, computed as first day of the next month minus one day;
the report holds one entry per day of that window (29 of them), where a
stored summary contributes its stored consumed and target values and a
missing day contributes zero consumed and the current computed targets. -/
theorem claim_C9_monthly_feb2024 (lookup : PyDate → Option StoredDaySummary)
    (current : NutritionTargets) :
    monthWindow 2024 2 =
      ({ year := 2024, month := 2, day := 1 }, { year := 2024, month := 2, day := 29 }) ∧
    (monthWindow 2024 2).2 = prevDay { year := 2024, month := 3, day := 1 } ∧
    (monthlyDays lookup current 2024 2).length = 29 ∧
    monthlyDays lookup current 2024 2 =
      ((List.range 29).map (fun i => ({ year := 2024, month := 2, day := i + 1 } : PyDate))).map
        (monthlyDayEntry lookup current) ∧
    (∀ d obj, lookup d = some obj → monthlyDayEntry lookup current d =
       { date := d, calories := pyInt obj.calories_consumed,
         calories_target := pyInt obj.calories_target,
         proteins := pyRound1 obj.protein_g, proteins_target := pyRound1 obj.protein_target,
         carbs := pyRound1 obj.carbs_g, carbs_target := pyRound1 obj.carbs_target,
         fats := pyRound1 obj.fats_g, fats_target := pyRound1 obj.fats_target }) ∧
    (∀ d, lookup d = none → monthlyDayEntry lookup current d =
       { date := d, calories := 0, calories_target := current.calories_target,
         proteins := 0, proteins_target := pyRound1 current.protein_target,
         carbs := 0, carbs_target := pyRound1 current.carbs_target,
         fats := 0, fats_target := pyRound1 current.fats_target }) := by
  refine ⟨by decide, by decide, ?_, ?_, ?_, ?_⟩
  · show (monthlyDays lookup current 2024 2).length = 29
    simp only [monthlyDays, List.length_map]
    decide
  · simp only [monthlyDays]
    rw [show datesUpTo 400 (monthWindow 2024 2).1 (monthWindow 2024 2).2 =
      (List.range 29).map (fun i => ({ year := 2024, month := 2, day := i + 1 } : PyDate)) from by decide]
  · intro d obj h
    simp [monthlyDayEntry, h]
  · intro d h
    simp [monthlyDayEntry, h]

/-- Witness for claim C9: a lookup holding one stored day, 2024-02-10,
produces 29 entries, the stored-day entry and a gap entry. -/
theorem claim_C9_witness :
    (monthlyDays lookupEx exTargets 2024 2).length = 29 ∧
    monthlyDayEntry lookupEx exTargets feb10 =
      { date := feb10, calories := pyInt exStoredDay.calories_consumed,
        calories_target := pyInt exStoredDay.calories_target,
        proteins := pyRound1 exStoredDay.protein_g,
        proteins_target := pyRound1 exStoredDay.protein_target,
        carbs := pyRound1 exStoredDay.carbs_g, carbs_target := pyRound1 exStoredDay.carbs_target,
        fats := pyRound1 exStoredDay.fats_g, fats_target := pyRound1 exStoredDay.fats_target } ∧
    monthlyDayEntry lookupEx exTargets { year := 2024, month := 2, day := 11 } =
      { date := { year := 2024, month := 2, day := 11 }, calories := 0,
        calories_target := exTargets.calories_target,
        proteins := 0, proteins_target := pyRound1 exTargets.protein_target,
        carbs := 0, carbs_target := pyRound1 exTargets.carbs_target,
        fats := 0, fats_target := pyRound1 exTargets.fats_target } := by
  have h := claim_C9_monthly_feb2024 lookupEx exTargets
  exact ⟨h.2.2.1, h.2.2.2.2.1 feb10 exStoredDay rfl, h.2.2.2.2.2 _ rfl⟩

/-- Delete branch of the remove path: a found entry with positive quantity
at most 1 is deleted and the day summary loses exactly the entry totals. -/
theorem removeMealEntry_delete_branch (st : AppState) (entryId user : ℕ) (entry : MealEntry)
    (hfind : st.entries.find? (fun e => e.id == entryId && e.user == user) = some entry)
    (hpos : 0 < entry.quantity) (hle : entry.quantity ≤ 1) :
    removeMealEntry entryId user st =
      (.deletedNoServings,
       { st with
         entries := deleteEntry entry.id st.entries,
         summaries := saveSummary
           (summaryMinus (baseSummary st entry.user entry.date)
             entry.calories entry.protein_g entry.carbs_g entry.fats_g)
           (baseSummaryRest st entry.user entry.date) }) := by
  have h0 : ¬ entry.quantity ≤ 0 := by linarith
  have h1 : ¬ 1 < entry.quantity := by linarith
  simp only [removeMealEntry, hfind, if_neg h0, if_neg h1,
    summaryMinus, baseSummary, baseSummaryRest]

/-- Lookup of the saved summary after the remove delete branch. -/
theorem removeMealEntry_delete_findSummary (st : AppState) (entryId user : ℕ) (entry : MealEntry)
    (hfind : st.entries.find? (fun e => e.id == entryId && e.user == user) = some entry)
    (hpos : 0 < entry.quantity) (hle : entry.quantity ≤ 1) :
    findSummary (removeMealEntry entryId user st).2.summaries entry.user entry.date =
      some (summaryMinus (baseSummary st entry.user entry.date)
        entry.calories entry.protein_g entry.carbs_g entry.fats_g) := by
  rw [removeMealEntry_delete_branch st entryId user entry hfind hpos hle]
  have hkey := getOrCreateSummary_fst_key st.summaries entry.user entry.date
    (zeroSummary entry.user entry.date) rfl rfl
  exact findSummary_saved st.summaries entry.user entry.date _ _ rfl rfl hkey.1 hkey.2

/-- Decrement branch of the remove path: a found entry with quantity above
1 loses one implied serving, and so does the day summary. -/
theorem removeMealEntry_decrement_branch (st : AppState) (entryId user : ℕ) (entry : MealEntry)
    (hfind : st.entries.find? (fun e => e.id == entryId && e.user == user) = some entry)
    (hgt : 1 < entry.quantity) :
    removeMealEntry entryId user st =
      (.oneServingRemoved (entryMinusOneImpliedServing entry),
       { st with
         entries := saveEntry (entryMinusOneImpliedServing entry) st.entries,
         summaries := saveSummary
           (summaryMinus (baseSummary st entry.user entry.date)
             (entry.calories / entry.quantity) (entry.protein_g / entry.quantity)
             (entry.carbs_g / entry.quantity) (entry.fats_g / entry.quantity))
           (baseSummaryRest st entry.user entry.date) }) := by
  have h0 : ¬ entry.quantity ≤ 0 := by linarith
  simp only [removeMealEntry, hfind, if_neg h0, if_pos hgt,
    entryMinusOneImpliedServing, summaryMinus, baseSummary, baseSummaryRest]

/-- Lookup of the saved summary after the remove decrement branch. -/
theorem removeMealEntry_decrement_findSummary (st : AppState) (entryId user : ℕ) (entry : MealEntry)
    (hfind : st.entries.find? (fun e => e.id == entryId && e.user == user) = some entry)
    (hgt : 1 < entry.quantity) :
    findSummary (removeMealEntry entryId user st).2.summaries entry.user entry.date =
      some (summaryMinus (baseSummary st entry.user entry.date)
        (entry.calories / entry.quantity) (entry.protein_g / entry.quantity)
        (entry.carbs_g / entry.quantity) (entry.fats_g / entry.quantity)) := by
  rw [removeMealEntry_decrement_branch st entryId user entry hfind hgt]
  have hkey := getOrCreateSummary_fst_key st.summaries entry.user entry.date
    (zeroSummary entry.user entry.date) rfl rfl
  exact findSummary_saved st.summaries entry.user entry.date _ _ rfl rfl hkey.1 hkey.2

/-- Claim C5: remove-one-serving on an owned entry uses implied per-unit
macros equal to current totals over current quantity; with quantity above
1 it subtracts one implied unit from the entry and the day summary; with
quantity exactly 1 it deletes the row and subtracts the entry totals from
the day summary; a non-positive quantity takes the safety branch that
deletes the row before any division and touches no summary. -/
theorem claim_C5_remove_one_serving (st : AppState) (entryId user : ℕ) (entry : MealEntry)
    (hfind : st.entries.find? (fun e => e.id == entryId && e.user == user) = some entry) :
    (entry.quantity ≤ 0 →
       removeMealEntry entryId user st =
         (.removedGuard, { st with entries := deleteEntry entry.id st.entries })) ∧
    (1 < entry.quantity →
       removeMealEntry entryId user st =
         (.oneServingRemoved (entryMinusOneImpliedServing entry),
          { st with
            entries := saveEntry (entryMinusOneImpliedServing entry) st.entries,
            summaries := saveSummary
              (summaryMinus (baseSummary st entry.user entry.date)
                (entry.calories / entry.quantity) (entry.protein_g / entry.quantity)
                (entry.carbs_g / entry.quantity) (entry.fats_g / entry.quantity))
              (baseSummaryRest st entry.user entry.date) }) ∧
       findSummary (removeMealEntry entryId user st).2.summaries entry.user entry.date =
         some (summaryMinus (baseSummary st entry.user entry.date)
           (entry.calories / entry.quantity) (entry.protein_g / entry.quantity)
           (entry.carbs_g / entry.quantity) (entry.fats_g / entry.quantity))) ∧
    (entry.quantity = 1 →
       removeMealEntry entryId user st =
         (.deletedNoServings,
          { st with
            entries := deleteEntry entry.id st.entries,
            summaries := saveSummary
              (summaryMinus (baseSummary st entry.user entry.date)
                entry.calories entry.protein_g entry.carbs_g entry.fats_g)
              (baseSummaryRest st entry.user entry.date) }) ∧
       findSummary (removeMealEntry entryId user st).2.summaries entry.user entry.date =
         some (summaryMinus (baseSummary st entry.user entry.date)
           entry.calories entry.protein_g entry.carbs_g entry.fats_g)) := by
  refine ⟨?_, ?_, ?_⟩
  · intro hq
    simp only [removeMealEntry, hfind, if_pos hq]
  · intro hgt
    exact ⟨removeMealEntry_decrement_branch st entryId user entry hfind hgt,
           removeMealEntry_decrement_findSummary st entryId user entry hfind hgt⟩
  · intro hq
    have hpos : 0 < entry.quantity := by rw [hq]; norm_num
    have hle : entry.quantity ≤ 1 := by rw [hq]
    exact ⟨removeMealEntry_delete_branch st entryId user entry hfind hpos hle,
           removeMealEntry_delete_findSummary st entryId user entry hfind hpos hle⟩

/-- Witness for claim C5: removing from the two-serving rice entry
decrements it, removing from the one-serving soup entry deletes it. -/
theorem claim_C5_witness :
    (removeMealEntry 5 2 riceState).1 = .oneServingRemoved (entryMinusOneImpliedServing riceEntry) ∧
    (removeMealEntry 8 2 oneState).1 = .deletedNoServings := by
  have h1 := claim_C5_remove_one_serving riceState 5 2 riceEntry rfl
  have h2 := claim_C5_remove_one_serving oneState 8 2 oneEntry rfl
  constructor
  · rw [(h1.2.1 (by norm_num [riceEntry])).1]
  · rw [(h2.2.2 rfl).1]

/-- Claim C10: for an owned entry with positive quantity at most 1,
including fractional quantities such as one half which the add path
permits, the remove operation takes the delete branch, removing the row
and subtracting the entry full totals from the day summary; the
decrement-by-one-serving branch occurs only when the quantity is strictly
greater than 1. -/
theorem claim_C10_fractional_remove (st : AppState) (entryId user : ℕ) (entry : MealEntry)
    (hfind : st.entries.find? (fun e => e.id == entryId && e.user == user) = some entry) :
    (0 < entry.quantity → entry.quantity ≤ 1 →
       removeMealEntry entryId user st =
         (.deletedNoServings,
          { st with
            entries := deleteEntry entry.id st.entries,
            summaries := saveSummary
              (summaryMinus (baseSummary st entry.user entry.date)
                entry.calories entry.protein_g entry.carbs_g entry.fats_g)
              (baseSummaryRest st entry.user entry.date) })) ∧
    (∀ e2, (removeMealEntry entryId user st).1 = .oneServingRemoved e2 → 1 < entry.quantity) ∧
    (addMealEntry 1 4 "Dinner" "Apple" "" (1/2) 100 1 26 0 emptyState).1.quantity = 1/2 := by
  refine ⟨?_, ?_, rfl⟩
  · intro hpos hle
    exact removeMealEntry_delete_branch st entryId user entry hfind hpos hle
  · intro e2 h
    by_cases h0 : entry.quantity ≤ 0
    · rw [show removeMealEntry entryId user st =
          (.removedGuard, { st with entries := deleteEntry entry.id st.entries }) from by
        simp only [removeMealEntry, hfind, if_pos h0]] at h
      exact absurd h (by simp)
    · by_cases h1 : 1 < entry.quantity
      · exact h1
      · rw [removeMealEntry_delete_branch st entryId user entry hfind (by linarith) (by linarith)] at h
        exact absurd h (by simp)

/-- Witness for claim C10: the half-serving apple entry takes the delete
branch, and the fractional add really stores quantity one half. -/
theorem claim_C10_witness :
    (removeMealEntry 3 1 halfState).1 = .deletedNoServings ∧
    (addMealEntry 1 4 "Dinner" "Apple" "" (1/2) 100 1 26 0 emptyState).1.quantity = 1/2 := by
  have h := claim_C10_fractional_remove halfState 3 1 halfEntry rfl
  constructor
  · rw [h.1 (by norm_num [halfEntry]) (by norm_num [halfEntry])]
  · exact h.2.2

/-- Saving an updated row with the id of a freshly appended row only
replaces that appended row. -/
theorem saveEntry_append_fresh (l : List MealEntry) (e e2 : MealEntry)
    (hid : e2.id = e.id) (hl : ∀ x ∈ l, x.id ≠ e.id) :
    saveEntry e2 (l ++ [e]) = l ++ [e2] := by
  unfold saveEntry
  rw [List.map_append]
  congr 1
  · apply list_map_ite_id
    intro x hx
    simp only [beq_iff_eq, hid]
    exact hl x hx
  · simp [hid]

/-- Claim C4: adding per-unit macros m1 with quantity q1 and then m2 with
quantity q2 for the same (user, date, slot, name) key leaves exactly one
entry for the key, with quantity q1 plus q2 and totals q1 times m1 plus q2
times m2, taken from the per-unit values of each call. -/
theorem claim_C4_add_merge (st : AppState) (user date : ℕ) (meal_type name s1 s2 : String)
    (q1 c1 p1 b1 f1 q2 c2 p2 b2 f2 : ℚ)
    (hwf : ∀ e ∈ st.entries, e.id < st.nextId)
    (hnone : entriesForKey st user date meal_type name = []) :
    ∃ e, entriesForKey
        ((addMealEntry user date meal_type name s2 q2 c2 p2 b2 f2
          ((addMealEntry user date meal_type name s1 q1 c1 p1 b1 f1 st).2)).2)
        user date meal_type name = [e] ∧
      e.quantity = q1 + q2 ∧
      e.calories = q1 * c1 + q2 * c2 ∧
      e.protein_g = q1 * p1 + q2 * p2 ∧
      e.carbs_g = q1 * b1 + q2 * b2 ∧
      e.fats_g = q1 * f1 + q2 * f2 := by
  have hfail : ∀ x ∈ st.entries, ¬ entryKeyMatches user date meal_type name x = true :=
    List.filter_eq_nil_iff.mp (by simpa [entriesForKey] using hnone)
  have hfind1 : st.entries.find? (entryKeyMatches user date meal_type name) = none :=
    List.find?_eq_none.mpr hfail
  have hst1e : (addMealEntry user date meal_type name s1 q1 c1 p1 b1 f1 st).2.entries =
      st.entries ++ [⟨st.nextId, user, date, meal_type, name, s1, q1,
        c1 * q1, p1 * q1, b1 * q1, f1 * q1, false⟩] := by
    simp only [addMealEntry, hfind1]
    exact saveEntry_append_fresh st.entries _ _ rfl (fun x hx => Nat.ne_of_lt (hwf x hx))
  obtain ⟨st1, h1⟩ : ∃ s, (addMealEntry user date meal_type name s1 q1 c1 p1 b1 f1 st).2 = s :=
    ⟨_, rfl⟩
  rw [h1] at hst1e
  rw [h1]
  have hfind2 : st1.entries.find? (entryKeyMatches user date meal_type name) =
      some ⟨st.nextId, user, date, meal_type, name, s1, q1,
        c1 * q1, p1 * q1, b1 * q1, f1 * q1, false⟩ := by
    rw [hst1e, list_find?_append_none _ _ _ hfind1]
    exact List.find?_cons_of_pos _ (by simp [entryKeyMatches])
  have hst2 : ∃ sv, (addMealEntry user date meal_type name s2 q2 c2 p2 b2 f2 st1).2.entries =
      st.entries ++ [⟨st.nextId, user, date, meal_type, name, sv, q1 + q2,
        c1 * q1 + c2 * q2, p1 * q1 + p2 * q2, b1 * q1 + b2 * q2, f1 * q1 + f2 * q2, false⟩] := by
    by_cases hserv : s1 = ""
    · refine ⟨s2, ?_⟩
      simp only [addMealEntry, hfind2]
      rw [if_pos hserv, hst1e]
      exact saveEntry_append_fresh st.entries _ _ rfl (fun x hx => Nat.ne_of_lt (hwf x hx))
    · refine ⟨s1, ?_⟩
      simp only [addMealEntry, hfind2]
      rw [if_neg hserv, hst1e]
      exact saveEntry_append_fresh st.entries _ _ rfl (fun x hx => Nat.ne_of_lt (hwf x hx))
  obtain ⟨sv, hs2⟩ := hst2
  refine ⟨⟨st.nextId, user, date, meal_type, name, sv, q1 + q2,
    c1 * q1 + c2 * q2, p1 * q1 + p2 * q2, b1 * q1 + b2 * q2, f1 * q1 + f2 * q2, false⟩,
    ?_, rfl, by ring, by ring, by ring, by ring⟩
  unfold entriesForKey
  rw [hs2, List.filter_append]
  rw [show st.entries.filter (entryKeyMatches user date meal_type name) = [] from by
    simpa [entriesForKey] using hnone]
  simp [entryKeyMatches]

/-- Witness for claim C4: two adds of oats, quantity 1 at 100 kcal then
quantity 2 at 50 kcal, merge into one entry with quantity 3 and 200 kcal. -/
theorem claim_C4_witness :
    ∃ e, entriesForKey
        ((addMealEntry 0 0 "Breakfast" "Oats" "" 2 50 1 2 3
          ((addMealEntry 0 0 "Breakfast" "Oats" "" 1 100 10 20 5 emptyState).2)).2)
        0 0 "Breakfast" "Oats" = [e] ∧
      e.quantity = 1 + 2 ∧ e.calories = 1 * 100 + 2 * 50 ∧
      e.protein_g = 1 * 10 + 2 * 1 ∧ e.carbs_g = 1 * 20 + 2 * 2 ∧ e.fats_g = 1 * 5 + 2 * 3 := by
  exact claim_C4_add_merge emptyState 0 0 "Breakfast" "Oats" "" "" 1 100 10 20 5 2 50 1 2 3
    (by simp [emptyState]) rfl

/-- The add path updates the day summary by adding the call macros times
quantity to the existing (or zero-default) row, independently of any eaten
flag; the summary lookup afterwards returns that row. -/
theorem addMealEntry_findSummary (user date : ℕ) (mt nm sv : String)
    (q c p b f : ℚ) (st : AppState) :
    findSummary ((addMealEntry user date mt nm sv q c p b f st).2).summaries user date =
      some (summaryPlus (baseSummary st user date) (c * q) (p * q) (b * q) (f * q)) := by
  have hkey := getOrCreateSummary_fst_key st.summaries user date (zeroSummary user date) rfl rfl
  have hsum : ((addMealEntry user date mt nm sv q c p b f st).2).summaries =
      saveSummary (summaryPlus (baseSummary st user date) (c * q) (p * q) (b * q) (f * q))
        (baseSummaryRest st user date) := by
    cases h : st.entries.find? (entryKeyMatches user date mt nm) with
    | none => simp only [addMealEntry, h, summaryPlus, baseSummary, baseSummaryRest]
    | some e => simp only [addMealEntry, h, summaryPlus, baseSummary, baseSummaryRest]
  rw [hsum]
  exact findSummary_saved st.summaries user date _ _ rfl rfl hkey.1 hkey.2

/-- Dashboard-today always syncs the summary targets from the computed
targets and the consumed fields from the eaten entries of the day, leaves
the entry table untouched, and saves the row it returns. -/
theorem dashboardToday_spec (user today : ℕ) (targets : NutritionTargets) (st : AppState) :
    (dashboardToday user today targets st).1.calories_consumed =
      (totalConsumed (eatenMeals st.entries user today)).calories ∧
    (dashboardToday user today targets st).1.protein_g =
      (totalConsumed (eatenMeals st.entries user today)).protein_g ∧
    (dashboardToday user today targets st).1.carbs_g =
      (totalConsumed (eatenMeals st.entries user today)).carbs_g ∧
    (dashboardToday user today targets st).1.fats_g =
      (totalConsumed (eatenMeals st.entries user today)).fats_g ∧
    (dashboardToday user today targets st).1.calories_target = (targets.calories_target : ℚ) ∧
    (dashboardToday user today targets st).1.protein_target = targets.protein_target ∧
    (dashboardToday user today targets st).1.carbs_target = targets.carbs_target ∧
    (dashboardToday user today targets st).1.fats_target = targets.fats_target ∧
    (dashboardToday user today targets st).2.entries = st.entries ∧
    findSummary (dashboardToday user today targets st).2.summaries user today =
      some (dashboardToday user today targets st).1 := by
  refine ⟨rfl, rfl, rfl, rfl, rfl, rfl, rfl, rfl, rfl, ?_⟩
  simp only [dashboardToday]
  exact findSummary_saved st.summaries user today _ _ rfl rfl
    (getOrCreateSummary_fst_key st.summaries user today _ rfl rfl).1
    (getOrCreateSummary_fst_key st.summaries user today _ rfl rfl).2

/-- Toggle-eaten on a found entry: the saved summary carries the
eaten-only consumed totals of the updated entry table, the summary lookup
returns the saved row, the entry table is the old one with the toggled
entry saved, and the stored targets are kept unchanged whenever the
existing summary row has a nonzero calorie target. -/
theorem toggleMealEaten_spec (entryId user : ℕ) (targets : NutritionTargets) (st : AppState)
    (st2 : AppState) (e2 : MealEntry) (s2 : DailyNutritionSummary)
    (h : toggleMealEaten entryId user targets st = some (st2, e2, s2)) :
    ∃ entry, st.entries.find? (fun e => e.id == entryId && e.user == user) = some entry ∧
      e2 = { entry with eaten := !entry.eaten } ∧
      st2.entries = saveEntry e2 st.entries ∧
      s2.calories_consumed = (totalConsumed (eatenMeals st2.entries user e2.date)).calories ∧
      s2.protein_g = (totalConsumed (eatenMeals st2.entries user e2.date)).protein_g ∧
      s2.carbs_g = (totalConsumed (eatenMeals st2.entries user e2.date)).carbs_g ∧
      s2.fats_g = (totalConsumed (eatenMeals st2.entries user e2.date)).fats_g ∧
      findSummary st2.summaries user e2.date = some s2 ∧
      (∀ s0, findSummary st.summaries user e2.date = some s0 → s0.calories_target ≠ 0 →
        s2.calories_target = s0.calories_target ∧ s2.protein_target = s0.protein_target ∧
        s2.carbs_target = s0.carbs_target ∧ s2.fats_target = s0.fats_target) := by
  cases hfind : st.entries.find? (fun e => e.id == entryId && e.user == user) with
  | none =>
    rw [toggleMealEaten, hfind] at h
    exact Option.noConfusion h
  | some entry =>
    rw [toggleMealEaten, hfind] at h
    simp only [Option.some.injEq, Prod.mk.injEq] at h
    obtain ⟨h1, h2, h3⟩ := h
    subst h1
    subst h2
    subst h3
    refine ⟨entry, rfl, rfl, rfl, ?_, ?_, ?_, ?_, ?_, ?_⟩
    · split <;> rfl
    · split <;> rfl
    · split <;> rfl
    · split <;> rfl
    · simp only []
      apply findSummary_saved st.summaries user entry.date _ _ rfl rfl
      · split <;>
          exact (getOrCreateSummary_fst_key st.summaries user entry.date _ rfl rfl).1
      · split <;>
          exact (getOrCreateSummary_fst_key st.summaries user entry.date _ rfl rfl).2
    · intro s0 h0 hne
      unfold findSummary at h0
      have hg : getOrCreateSummary st.summaries user entry.date
          { user := user, date := entry.date,
            calories_target := (targets.calories_target : ℚ),
            protein_target := targets.protein_target,
            carbs_target := targets.carbs_target,
            fats_target := targets.fats_target,
            calories_consumed := (totalConsumed (eatenMeals (saveEntry { entry with eaten := !entry.eaten } st.entries) user entry.date)).calories,
            protein_g := (totalConsumed (eatenMeals (saveEntry { entry with eaten := !entry.eaten } st.entries) user entry.date)).protein_g,
            carbs_g := (totalConsumed (eatenMeals (saveEntry { entry with eaten := !entry.eaten } st.entries) user entry.date)).carbs_g,
            fats_g := (totalConsumed (eatenMeals (saveEntry { entry with eaten := !entry.eaten } st.entries) user entry.date)).fats_g } =
          (s0, st.summaries) := by
        unfold getOrCreateSummary
        rw [h0]
      rw [hg]
      have hbeq : (s0.calories_target == 0) = false := by
        simp [hne]
      simp only [hbeq]
      exact ⟨rfl, rfl, rfl, rfl⟩

/-- Claim C1: after adding one not-yet-eaten entry to an empty, reconciled
database, the summary consumed calories are 100 while the sum over the
entries with eaten true is 0, so the claimed invariant fails after the add
operation. -/
theorem claim_C1_counterexample :
    (findSummary addedState.summaries 0 0).map (fun s => s.calories_consumed) = some 100 ∧
    (totalConsumed (eatenMeals addedState.entries 0 0)).calories = 0 ∧
    (100 : ℚ) ≠ 0 := by
  refine ⟨?_, ?_, by norm_num⟩
  · have h := addMealEntry_findSummary 0 0 "Breakfast" "Oats" "" 1 100 10 20 5 emptyState
    rw [show addedState = (addMealEntry 0 0 "Breakfast" "Oats" "" 1 100 10 20 5 emptyState).2
      from rfl, h]
    norm_num [summaryPlus, baseSummary, getOrCreateSummary, zeroSummary, emptyState]
  · have h : addedState.entries =
        [⟨0, 0, 0, "Breakfast", "Oats", "", 1, 100 * 1, 10 * 1, 20 * 1, 5 * 1, false⟩] := rfl
    rw [h]
    simp [eatenMeals, totalConsumed]

/-- Claim C1 (amended): the dashboard-today and toggle-eaten paths
reconcile the summary by scanning the entries with eaten true, but the add
path applies an incremental delta of the call macros times quantity to the
summary regardless of the eaten flag, and a freshly added entry starts
with eaten false, so after an add the summary can differ from the
eaten-only sum. -/
theorem claim_C1_amended :
    (∀ (user today : ℕ) (targets : NutritionTargets) (st : AppState),
       ((dashboardToday user today targets st).1.calories_consumed =
          (totalConsumed (eatenMeals st.entries user today)).calories ∧
        (dashboardToday user today targets st).1.protein_g =
          (totalConsumed (eatenMeals st.entries user today)).protein_g ∧
        (dashboardToday user today targets st).1.carbs_g =
          (totalConsumed (eatenMeals st.entries user today)).carbs_g ∧
        (dashboardToday user today targets st).1.fats_g =
          (totalConsumed (eatenMeals st.entries user today)).fats_g) ∧
       (dashboardToday user today targets st).2.entries = st.entries ∧
       findSummary (dashboardToday user today targets st).2.summaries user today =
         some (dashboardToday user today targets st).1) ∧
    (∀ (entryId user : ℕ) (targets : NutritionTargets) (st st2 : AppState)
       (e2 : MealEntry) (s2 : DailyNutritionSummary),
       toggleMealEaten entryId user targets st = some (st2, e2, s2) →
       (s2.calories_consumed = (totalConsumed (eatenMeals st2.entries user e2.date)).calories ∧
        s2.protein_g = (totalConsumed (eatenMeals st2.entries user e2.date)).protein_g ∧
        s2.carbs_g = (totalConsumed (eatenMeals st2.entries user e2.date)).carbs_g ∧
        s2.fats_g = (totalConsumed (eatenMeals st2.entries user e2.date)).fats_g) ∧
       findSummary st2.summaries user e2.date = some s2) ∧
    (∀ (user date : ℕ) (mt nm sv : String) (q c p b f : ℚ) (st : AppState),
       findSummary ((addMealEntry user date mt nm sv q c p b f st).2).summaries user date =
         some (summaryPlus (baseSummary st user date) (c * q) (p * q) (b * q) (f * q))) ∧
    (addMealEntry 0 0 "Breakfast" "Oats" "" 1 100 10 20 5 emptyState).1.eaten = false := by
  refine ⟨?_, ?_, ?_, rfl⟩
  · intro user today targets st
    have h := dashboardToday_spec user today targets st
    exact ⟨⟨h.1, h.2.1, h.2.2.1, h.2.2.2.1⟩,
           h.2.2.2.2.2.2.2.2.1, h.2.2.2.2.2.2.2.2.2⟩
  · intro entryId user targets st st2 e2 s2 h
    obtain ⟨entry, -, -, -, hc, hp, hb, hf, hfs, -⟩ :=
      toggleMealEaten_spec entryId user targets st st2 e2 s2 h
    exact ⟨⟨hc, hp, hb, hf⟩, hfs⟩
  · intro user date mt nm sv q c p b f st
    exact addMealEntry_findSummary user date mt nm sv q c p b f st

/-- Witness for the amended claim C1: dashboard-today on the empty state,
and a concrete toggle of the rice entry whose saved summary matches the
eaten-only totals. -/
theorem claim_C1_witness :
    (dashboardToday 0 0 exTargets emptyState).1.calories_consumed =
      (totalConsumed (eatenMeals emptyState.entries 0 0)).calories ∧
    findSummary
        ({ entries := [⟨5, 2, 9, "Lunch", "Rice", "1 cup", 2, 260, 5, 56, 1, false⟩],
           summaries := [⟨2, 9, ((2555 : ℤ) : ℚ), 0, 0, 112, 0, 385, 0, 63⟩],
           nextId := 6 } : AppState).summaries 2
        (⟨5, 2, 9, "Lunch", "Rice", "1 cup", 2, 260, 5, 56, 1, false⟩ : MealEntry).date =
      some ⟨2, 9, ((2555 : ℤ) : ℚ), 0, 0, 112, 0, 385, 0, 63⟩ := by
  have h := claim_C1_amended
  refine ⟨(h.1 0 0 exTargets emptyState).1.1, ?_⟩
  exact (h.2.1 5 2 exTargets riceState _ _ _ rfl).2

/-- Claim C7: the current-profile targets evaluate to a 2555 calorie
target, yet after an add on a state whose summary row holds a stale
calorie target of 1000 the stored target is still 1000, so the add path
does not refresh targets from the calculator. -/
theorem claim_C7_counterexample :
    (calculate_nutrition_targets (some c2Profile)).map (fun t => t.calories_target) = some 2555 ∧
    (findSummary ((addMealEntry 0 0 "Lunch" "Rice" "" 1 100 0 0 0 staleTargetState).2).summaries
        0 0).map (fun s => s.calories_target) = some 1000 ∧
    (1000 : ℚ) ≠ 2555 := by
  refine ⟨c2_calories_eval, ?_, by norm_num⟩
  rw [addMealEntry_findSummary 0 0 "Lunch" "Rice" "" 1 100 0 0 0 staleTargetState]
  norm_num [summaryPlus, baseSummary, getOrCreateSummary, zeroSummary, staleTargetState,
    findSummary, summaryKeyMatches, List.find?]

/-- Claim C7 (amended): only the dashboard-today path refreshes the stored
summary targets from the calculator on every call; the add path never
touches the target fields (an absent row is created with the zero-target
default), and the toggle path keeps the stored targets unchanged whenever
the existing row's calorie target is nonzero. -/
theorem claim_C7_amended :
    (∀ (user today : ℕ) (targets : NutritionTargets) (st : AppState),
       (dashboardToday user today targets st).1.calories_target = (targets.calories_target : ℚ) ∧
       (dashboardToday user today targets st).1.protein_target = targets.protein_target ∧
       (dashboardToday user today targets st).1.carbs_target = targets.carbs_target ∧
       (dashboardToday user today targets st).1.fats_target = targets.fats_target ∧
       findSummary (dashboardToday user today targets st).2.summaries user today =
         some (dashboardToday user today targets st).1) ∧
    (∀ (user date : ℕ) (mt nm sv : String) (q c p b f : ℚ) (st : AppState),
       (findSummary ((addMealEntry user date mt nm sv q c p b f st).2).summaries user date).map
           (fun s => (s.calories_target, s.protein_target, s.carbs_target, s.fats_target)) =
         some ((baseSummary st user date).calories_target,
               (baseSummary st user date).protein_target,
               (baseSummary st user date).carbs_target,
               (baseSummary st user date).fats_target)) ∧
    (∀ (entryId user : ℕ) (targets : NutritionTargets) (st st2 : AppState)
       (e2 : MealEntry) (s2 : DailyNutritionSummary) (s0 : DailyNutritionSummary),
       toggleMealEaten entryId user targets st = some (st2, e2, s2) →
       findSummary st.summaries user e2.date = some s0 → s0.calories_target ≠ 0 →
       s2.calories_target = s0.calories_target ∧ s2.protein_target = s0.protein_target ∧
       s2.carbs_target = s0.carbs_target ∧ s2.fats_target = s0.fats_target) := by
  refine ⟨?_, ?_, ?_⟩
  · intro user today targets st
    have h := dashboardToday_spec user today targets st
    exact ⟨h.2.2.2.2.1, h.2.2.2.2.2.1, h.2.2.2.2.2.2.1, h.2.2.2.2.2.2.2.1,
           h.2.2.2.2.2.2.2.2.2⟩
  · intro user date mt nm sv q c p b f st
    rw [addMealEntry_findSummary user date mt nm sv q c p b f st]
    rfl
  · intro entryId user targets st st2 e2 s2 s0 h h0 hne
    obtain ⟨entry, -, -, -, -, -, -, -, -, hstale⟩ :=
      toggleMealEaten_spec entryId user targets st st2 e2 s2 h
    exact hstale s0 h0 hne

/-- Witness for the amended claim C7: dashboard-today refreshes the target
to 2555 on the empty state, and toggling the rice entry over the stale
summary row keeps the stale 1000 target. -/
theorem claim_C7_witness :
    (dashboardToday 0 0 exTargets emptyState).1.calories_target =
      ((exTargets.calories_target : ℤ) : ℚ) ∧
    (⟨2, 9, 1000, 0, 0, 7, 0, 8, 0, 9⟩ : DailyNutritionSummary).calories_target =
      staleSummary.calories_target := by
  have h := claim_C7_amended
  refine ⟨(h.1 0 0 exTargets emptyState).1, ?_⟩
  exact (h.2.2 5 2 exTargets staleState2
    { entries := [⟨5, 2, 9, "Lunch", "Rice", "1 cup", 2, 260, 5, 56, 1, false⟩],
      summaries := [⟨2, 9, 1000, 0, 0, 7, 0, 8, 0, 9⟩], nextId := 6 }
    ⟨5, 2, 9, "Lunch", "Rice", "1 cup", 2, 260, 5, 56, 1, false⟩
    ⟨2, 9, 1000, 0, 0, 7, 0, 8, 0, 9⟩
    staleSummary rfl rfl (by norm_num [staleSummary])).1
